import Mathlib

/-!
# Verification of the magictiles falling-tile game core (src/game.js)

Shallow embedding of the simulation/state layer of the game: the `Tile`
entity, the `TileSystem` (spawning, falling, hit-zone judgment), the
`GameStateManager` (score/combo/multiplier and the MENU/PLAYING/GAMEOVER
phase), and the `GameEngine` event handlers that tie them together.

Modelling conventions:
* JavaScript numbers that hold positions, speeds and times are embedded as
  exact rationals (`ℚ`); score/combo counters are natural numbers.
* DOM manipulation (element creation, CSS classes, `textContent`,
  screen show/hide) has no bearing on the simulation state and is dropped.
* `Math.random()` is embedded by passing the random draw `r ∈ [0,1)` as an
  explicit argument to the operations that consume it.
* Synchronous `CustomEvent` dispatch is embedded by returning the emitted
  events as data; the engine folds its handlers over them in dispatch
  order.  This is faithful because the handlers mutate only the
  `GameStateManager` while the dispatching tile loop reads only tile state.
* `setTimeout(() => tile.destroy(), 100)` in `handleTileClick` defers a
  purely visual removal of an already-resolved tile; it is not modelled
  (the tile is already `clicked`, so it can produce no further judgment).
-/

namespace MagicTiles

-- `CONFIG` constants from src/game.js lines 5-15.
namespace CONFIG

def COLUMNS : ℤ := 4

def TILE_WIDTH : ℚ := 100

def TILE_HEIGHT : ℚ := 100

/-- seconds -/
def SPAWN_INTERVAL : ℚ := 6/10

/-- pixels per second -/
def INITIAL_SPEED : ℚ := 300

/-- pixels per second increase over time -/
def SPEED_INCREASE : ℚ := 10

/-- pixels from hit line -/
def HIT_ZONE_TOLERANCE : ℚ := 50

/-- pixels for perfect hit -/
def PERFECT_TOLERANCE : ℚ := 20

/-- combo needed for multiplier increase -/
def COMBO_MULTIPLIER_INCREASE : ℕ := 5

end CONFIG

/-- `GAME_STATES` from src/game.js lines 17-21. -/
inductive GameState where
  | MENU
  | PLAYING
  | GAMEOVER
deriving DecidableEq, Repr

/-- The four judgment kinds the core emits (spec §6 `onJudgment`);
`perfect`/`good` come from `handleTileClick`'s hit-zone branch, `bad` from
its failure branch, `miss` from the boundary check in `TileSystem.update`. -/
inductive Judgment where
  | perfect
  | good
  | bad
  | miss
deriving DecidableEq, Repr

/-- `Tile` entity, src/game.js lines 27-90.  The DOM element and its click
listener are external presentation; the simulation state is the four
fields below. -/
structure Tile where
  column : ℤ
  y : ℚ
  speed : ℚ
  active : Bool
  clicked : Bool
deriving DecidableEq, Repr

namespace Tile

/-- `new Tile(column, speed, container)` (constructor, lines 28-47):
starts above the screen at `y = -TILE_HEIGHT`, active and unclicked. -/
def new (column : ℤ) (speed : ℚ) : Tile :=
  { column := column
    y := -CONFIG.TILE_HEIGHT
    speed := speed
    active := true
    clicked := false }

/-- `Tile.update(delta)` (lines 52-58): no-op when inactive, otherwise
time-based movement `y += speed * delta`. -/
def update (t : Tile) (delta : ℚ) : Tile :=
  if t.active = false then t
  else { t with y := t.y + t.speed * delta }

/-- `Tile.onClick()` (lines 63-72): ignored when inactive or already
clicked; otherwise marks the tile clicked and dispatches a `tileClicked`
event carrying the tile's current `y`.  The returned `Option ℚ` is the
emitted event's `detail.y` (`none` = no event dispatched). -/
def onClick (t : Tile) : Tile × Option ℚ :=
  if t.active = false ∨ t.clicked = true then (t, none)
  else ({ t with clicked := true }, some t.y)

/-- `Tile.destroy()` (lines 84-89): deactivates the tile (DOM removal
dropped). -/
def destroy (t : Tile) : Tile :=
  { t with active := false }

end Tile

/-- `TileSystem`, src/game.js lines 96-190.  The DOM container is
external; `gameAreaHeight` and `hitLineY` are the geometry read at
construction. -/
structure TileSystem where
  gameAreaHeight : ℚ
  hitLineY : ℚ
  tiles : List Tile
  spawnTimer : ℚ
  currentSpeed : ℚ
  difficulty : ℚ
deriving DecidableEq, Repr

namespace TileSystem

/-- `new TileSystem(container, gameAreaHeight, hitLineY)` (lines 97-105). -/
def new (gameAreaHeight hitLineY : ℚ) : TileSystem :=
  { gameAreaHeight := gameAreaHeight
    hitLineY := hitLineY
    tiles := []
    spawnTimer := 0
    currentSpeed := CONFIG.INITIAL_SPEED
    difficulty := 1 }

/-- `Math.floor(Math.random() * CONFIG.COLUMNS)` (line 111), with the
random draw `r` passed explicitly. -/
def randomColumn (r : ℚ) : ℤ :=
  ⌊r * (CONFIG.COLUMNS : ℚ)⌋

/-- `TileSystem.spawnTile()` (lines 110-114): pushes a fresh tile in a
random column, falling at the system's current speed. -/
def spawnTile (sys : TileSystem) (r : ℚ) : TileSystem :=
  { sys with tiles := sys.tiles ++ [Tile.new (randomColumn r) sys.currentSpeed] }

/-- The per-tile half of `TileSystem.update` (lines 129-150): the
backwards `for` loop over `tiles` with `splice` removal.  Each original
element is visited exactly once, later-indexed tiles first, and removal
of the visited index preserves the relative order of the kept tiles; so
the loop is the recursion below, with the events of the tail (visited
first) preceding the event of the head.  Returns the surviving tile list
and the `tileMissed` events in dispatch order, each carrying the missed
tile as it was when dispatched (before `destroy`). -/
def tickTiles (gameAreaHeight delta : ℚ) : List Tile → List Tile × List Tile
  | [] => ([], [])
  | t :: rest =>
    let res := tickTiles gameAreaHeight delta rest
    if t.active = false then res
    else
      let t' := t.update delta
      if t'.y > gameAreaHeight ∧ t'.clicked = false then (res.1, res.2 ++ [t'])
      else (t' :: res.1, res.2)

/-- `TileSystem.update(delta)` (lines 119-151): advances the spawn timer,
spawns at most one tile when it reaches `SPAWN_INTERVAL` (resetting the
timer to 0), then runs the tile loop — which also covers the tile spawned
this very tick, since `spawnTile` pushes before the loop starts.  Returns
the updated system and the `tileMissed` events. -/
def update (sys : TileSystem) (delta r : ℚ) : TileSystem × List Tile :=
  let sys0 := { sys with spawnTimer := sys.spawnTimer + delta }
  let sys1 :=
    if CONFIG.SPAWN_INTERVAL ≤ sys0.spawnTimer then
      { sys0.spawnTile r with spawnTimer := 0 }
    else sys0
  let res := tickTiles sys1.gameAreaHeight delta sys1.tiles
  ({ sys1 with tiles := res.1 }, res.2)

/-- The distance both judgment predicates compute (lines 157-158 and
166-167): `|tileCenter - hitLineY|` with `tileCenter = tileY + TILE_HEIGHT / 2`. -/
def hitDistance (sys : TileSystem) (tileY : ℚ) : ℚ :=
  |tileY + CONFIG.TILE_HEIGHT / 2 - sys.hitLineY|

/-- `TileSystem.isInHitZone(tileY)` (lines 156-160). -/
def isInHitZone (sys : TileSystem) (tileY : ℚ) : Bool :=
  let tileCenter := tileY + CONFIG.TILE_HEIGHT / 2
  let distance := |tileCenter - sys.hitLineY|
  distance ≤ CONFIG.HIT_ZONE_TOLERANCE

/-- `TileSystem.isPerfectHit(tileY)` (lines 165-169). -/
def isPerfectHit (sys : TileSystem) (tileY : ℚ) : Bool :=
  let tileCenter := tileY + CONFIG.TILE_HEIGHT / 2
  let distance := |tileCenter - sys.hitLineY|
  distance ≤ CONFIG.PERFECT_TOLERANCE

/-- `TileSystem.increaseDifficulty(delta)` (lines 174-177). -/
def increaseDifficulty (sys : TileSystem) (delta : ℚ) : TileSystem :=
  let difficulty := sys.difficulty + delta * (5/100)
  { sys with
    difficulty := difficulty
    currentSpeed := CONFIG.INITIAL_SPEED + difficulty * CONFIG.SPEED_INCREASE }

/-- `TileSystem.reset()` (lines 182-189): destroys and drops every tile,
zeroes the spawn timer, restores speed to `INITIAL_SPEED` and difficulty
to its constructor value `1.0`. -/
def reset (sys : TileSystem) : TileSystem :=
  { sys with
    tiles := []
    spawnTimer := 0
    currentSpeed := CONFIG.INITIAL_SPEED
    difficulty := 1 }

end TileSystem

/-- `GameStateManager`, src/game.js lines 196-287 (UI element references
and `updateUI` dropped — they only write `textContent`). -/
structure GameStateManager where
  currentState : GameState
  score : ℕ
  combo : ℕ
  bestCombo : ℕ
  multiplier : ℕ
deriving DecidableEq, Repr

namespace GameStateManager

/-- `new GameStateManager()` (lines 197-212). -/
def new : GameStateManager :=
  { currentState := .MENU
    score := 0
    combo := 0
    bestCombo := 0
    multiplier := 1 }

/-- `GameStateManager.resetScore()` (lines 271-277). -/
def resetScore (m : GameStateManager) : GameStateManager :=
  { m with score := 0, combo := 0, bestCombo := 0, multiplier := 1 }

/-- `GameStateManager.setState(newState)` (lines 217-238): records the
new state; entering PLAYING additionally calls `resetScore()` (the MENU
and GAMEOVER branches only toggle screens / write final-score text). -/
def setState (m : GameStateManager) (newState : GameState) : GameStateManager :=
  let m1 := { m with currentState := newState }
  match newState with
  | .PLAYING => m1.resetScore
  | _ => m1

/-- `GameStateManager.addScore(isPerfect)` (lines 243-257): adds
`(isPerfect ? 150 : 100) * multiplier`, increments combo, raises
`bestCombo` when passed, and recomputes
`multiplier = Math.floor(combo / COMBO_MULTIPLIER_INCREASE) + 1`. -/
def addScore (m : GameStateManager) (isPerfect : Bool) : GameStateManager :=
  let basePoints : ℕ := if isPerfect then 150 else 100
  let score := m.score + basePoints * m.multiplier
  let combo := m.combo + 1
  { m with
    score := score
    combo := combo
    bestCombo := if m.bestCombo < combo then combo else m.bestCombo
    multiplier := combo / CONFIG.COMBO_MULTIPLIER_INCREASE + 1 }

/-- `GameStateManager.resetCombo()` (lines 262-266). -/
def resetCombo (m : GameStateManager) : GameStateManager :=
  { m with combo := 0, multiplier := 1 }

/-- The invariant relating the stored multiplier to the combo counter
(spec §3): `multiplier = floor(combo / COMBO_STEP) + 1` with
`COMBO_STEP = COMBO_MULTIPLIER_INCREASE = 5`. -/
def multiplierInvariant (m : GameStateManager) : Prop :=
  m.multiplier = m.combo / CONFIG.COMBO_MULTIPLIER_INCREASE + 1

end GameStateManager

/-- The three score-state mutations the engine performs on a
`GameStateManager` during a session: `addScore` (perfect/good hit),
`resetCombo`, `resetScore`. -/
inductive ScoreOp where
  | addScore (isPerfect : Bool)
  | resetCombo
  | resetScore
deriving DecidableEq, Repr

/-- Apply one score operation. -/
def ScoreOp.apply (m : GameStateManager) : ScoreOp → GameStateManager
  | .addScore isPerfect => m.addScore isPerfect
  | .resetCombo => m.resetCombo
  | .resetScore => m.resetScore

/-- Run a sequence of score operations from a starting state. -/
def runScoreOps (ops : List ScoreOp) (m : GameStateManager) : GameStateManager :=
  ops.foldl ScoreOp.apply m

/-- `GameEngine`, src/game.js lines 293-434.  `lastTime` and `running`
belong to the real-time loop plumbing (`performance.now`,
`requestAnimationFrame`) and carry no simulation state; the geometry the
constructor reads from the DOM is the `TileSystem`'s
`gameAreaHeight`/`hitLineY`. -/
structure GameEngine where
  stateManager : GameStateManager
  tileSystem : TileSystem
deriving DecidableEq, Repr

namespace GameEngine

/-- `new GameEngine()` (lines 294-318), with the game-area height and
hit-line position read from the DOM passed as arguments. -/
def new (gameAreaHeight hitLineY : ℚ) : GameEngine :=
  { stateManager := GameStateManager.new
    tileSystem := TileSystem.new gameAreaHeight hitLineY }

/-- `GameEngine.startGame()` (lines 348-357): resets the tile system and
enters PLAYING (which resets the score via `setState`).  The
`running`/`lastTime`/`loop()` bookkeeping only (re)starts the
animation-frame loop. -/
def startGame (e : GameEngine) : GameEngine :=
  { e with
    tileSystem := e.tileSystem.reset
    stateManager := e.stateManager.setState .PLAYING }

/-- The `start-btn` click listener (lines 325-327) calls `startGame()`. -/
def requestStart (e : GameEngine) : GameEngine :=
  e.startGame

/-- The `restart-btn` click listener (lines 330-332) calls `startGame()`. -/
def requestRestart (e : GameEngine) : GameEngine :=
  e.startGame

/-- `GameEngine.gameOver()` (lines 394-396). -/
def gameOver (e : GameEngine) : GameEngine :=
  { e with stateManager := e.stateManager.setState .GAMEOVER }

/-- `GameEngine.handleTileClick(detail)` (lines 362-379), given the
event's `detail.y`: discards the event unless PLAYING; inside the hit
zone scores a perfect or good hit (the tile's deferred `destroy` is
visual), outside it is a bad hit ending the run.  The returned judgment
is the one the handler acts on (`none` = discarded). -/
def handleTileClick (e : GameEngine) (y : ℚ) : GameEngine × Option Judgment :=
  if e.stateManager.currentState ≠ .PLAYING then (e, none)
  else if e.tileSystem.isInHitZone y then
    let isPerfect := e.tileSystem.isPerfectHit y
    ({ e with stateManager := e.stateManager.addScore isPerfect },
      some (if isPerfect then .perfect else .good))
  else (e.gameOver, some Judgment.bad)

/-- `GameEngine.handleTileMiss(detail)` (lines 384-389): discards the
event unless PLAYING, otherwise game over (the `detail` is unused). -/
def handleTileMiss (e : GameEngine) : GameEngine :=
  if e.stateManager.currentState ≠ .PLAYING then e
  else e.gameOver

/-- A full hit attempt on a tile: the tile's click listener fires
`Tile.onClick` (lines 46, 63-72), and when an event is dispatched the
`tileClicked` listener (lines 335-337) runs `handleTileClick` on it
synchronously.  Returns the updated engine, the tile as the click left
it, and the judgment acted on. -/
def clickTile (e : GameEngine) (t : Tile) : GameEngine × Tile × Option Judgment :=
  match t.onClick with
  | (t', none) => (e, t', none)
  | (t', some y) => ((e.handleTileClick y).1, t', (e.handleTileClick y).2)

/-- `GameEngine.update(delta)` (lines 420-425): only while PLAYING, run
`tileSystem.update(delta)` — whose `tileMissed` dispatches invoke
`handleTileMiss` synchronously, in dispatch order — then
`tileSystem.increaseDifficulty(delta)`.  Folding the handlers after the
tile loop is faithful: they touch only `stateManager`, which the loop
never reads. -/
def update (e : GameEngine) (delta r : ℚ) : GameEngine :=
  if e.stateManager.currentState = .PLAYING then
    let res := e.tileSystem.update delta r
    let e1 := { e with tileSystem := res.1 }
    let e2 := res.2.foldl (fun acc _ => acc.handleTileMiss) e1
    { e2 with tileSystem := e2.tileSystem.increaseDifficulty delta }
  else e

end GameEngine

/-- A concrete mid-run state over a 600-pixel play area with the hit line
at 500: a started game (`startGame`) whose score state took six good
hits (score 700, combo 6, bestCombo 6, multiplier 2), with one live
unresolved tile already past the bottom boundary at `y = 601`. -/
def missScenario : GameEngine :=
  { stateManager :=
      (((((((GameEngine.new 600 500).startGame.stateManager.addScore
        false).addScore false).addScore false).addScore false).addScore
        false).addScore false)
    tileSystem :=
      { (GameEngine.new 600 500).startGame.tileSystem with
          tiles := [{ column := 0, y := 601, speed := 300, active := true, clicked := false }] } }

/-! ## Theorems -/

/-- Each score operation re-establishes `combo ≤ bestCombo` from any
input state: `addScore` raises `bestCombo` to the new combo when it is
passed, and both resets set `combo` to 0. -/
lemma comboLeBest_apply (m : GameStateManager) (op : ScoreOp) :
    (ScoreOp.apply m op).combo ≤ (ScoreOp.apply m op).bestCombo := by
  cases op with
  | addScore isPerfect =>
    simp only [ScoreOp.apply, GameStateManager.addScore]
    split <;> omega
  | resetCombo => simp [ScoreOp.apply, GameStateManager.resetCombo]
  | resetScore => simp [ScoreOp.apply, GameStateManager.resetScore]

/-- `combo ≤ bestCombo` is preserved by any sequence of score operations. -/
lemma comboLeBest_run (ops : List ScoreOp) (m : GameStateManager)
    (h : m.combo ≤ m.bestCombo) :
    (runScoreOps ops m).combo ≤ (runScoreOps ops m).bestCombo := by
  induction ops generalizing m with
  | nil => exact h
  | cons op rest ih =>
    simp only [runScoreOps, List.foldl_cons] at ih ⊢
    exact ih (ScoreOp.apply m op) (comboLeBest_apply m op)

/-- C3: the invariant `multiplier = floor(combo / COMBO_STEP) + 1`
(`COMBO_STEP = COMBO_MULTIPLIER_INCREASE = 5`) holds in the initial score
state and after every `addScore`, `resetCombo` and `resetScore` call,
from any prior state — so in particular for every reachable combo value. -/
theorem multiplier_tracks_combo :
    GameStateManager.multiplierInvariant GameStateManager.new ∧
    (∀ (m : GameStateManager) (isPerfect : Bool),
      GameStateManager.multiplierInvariant (m.addScore isPerfect)) ∧
    (∀ m : GameStateManager, GameStateManager.multiplierInvariant m.resetCombo) ∧
    (∀ m : GameStateManager, GameStateManager.multiplierInvariant m.resetScore) := by
  refine ⟨?_, fun m isPerfect => ?_, fun m => ?_, fun m => ?_⟩ <;>
    simp [GameStateManager.multiplierInvariant, GameStateManager.new,
      GameStateManager.addScore, GameStateManager.resetCombo, GameStateManager.resetScore]

/-- C10: from the initial score state, every sequence of `addScore`,
`resetCombo` and `resetScore` calls keeps `combo ≤ bestCombo`; `addScore`
never decreases `bestCombo`, `resetCombo` leaves it unchanged, and
`resetScore` is the only operation that sets it back to 0. -/
theorem combo_le_bestCombo :
    (∀ ops : List ScoreOp,
      (runScoreOps ops GameStateManager.new).combo ≤
        (runScoreOps ops GameStateManager.new).bestCombo) ∧
    (∀ (m : GameStateManager) (isPerfect : Bool),
      m.bestCombo ≤ (m.addScore isPerfect).bestCombo) ∧
    (∀ m : GameStateManager, m.resetCombo.bestCombo = m.bestCombo) ∧
    (∀ m : GameStateManager, m.resetScore.bestCombo = 0) := by
  refine ⟨fun ops => comboLeBest_run ops GameStateManager.new (Nat.le_refl 0),
    ?_, fun m => rfl, fun m => rfl⟩
  intro m isPerfect
  simp only [GameStateManager.addScore]
  split <;> omega

/-- C4 counterexample: `reset()` restores `difficulty` to its constructor
value `1.0`, not to 0 — here on a system whose difficulty was first
raised by `increaseDifficulty(2)`. -/
theorem reset_difficulty_is_one_not_zero :
    ¬ ((TileSystem.new 600 500).increaseDifficulty 2).reset.difficulty = 0 := by
  simp [TileSystem.new, TileSystem.increaseDifficulty, TileSystem.reset]

/-- C4 (amended): after `TileSystem.reset()`, from any prior state, the
live-tile list is empty, the spawn accumulator is 0, `currentFallSpeed`
equals `INITIAL_SPEED`, and the difficulty is restored to its constructor
value `1.0` (not zeroed). -/
theorem reset_restores_constructor_state (sys : TileSystem) :
    sys.reset.tiles = [] ∧ sys.reset.spawnTimer = 0 ∧
    sys.reset.difficulty = 1 ∧ sys.reset.currentSpeed = CONFIG.INITIAL_SPEED :=
  ⟨rfl, rfl, rfl, rfl⟩

/-- C8: with constant `speed`, advancing an active tile by `d1` then `d2`
lands exactly where advancing once by `d1 + d2` does (exact arithmetic),
and advancing an inactive tile changes nothing. -/
theorem tile_update_additive (t : Tile) (d1 d2 : ℚ) (_h1 : 0 ≤ d1) (_h2 : 0 ≤ d2) :
    (t.active = true → (t.update d1).update d2 = t.update (d1 + d2)) ∧
    (t.active = false → t.update d1 = t) := by
  constructor
  · intro ha
    simp only [Tile.update, ha]
    norm_num [mul_add, add_assoc]
  · intro ha
    simp [Tile.update, ha]

/-- Witness for C8 at a concrete tile: a fresh tile advanced twice by
0.1 s, and a destroyed tile advanced by 0.1 s. -/
theorem tile_update_additive_witness :
    ((Tile.new 0 300).update (1/10)).update (1/10) =
      (Tile.new 0 300).update (1/10 + 1/10) ∧
    (Tile.new 0 300).destroy.update (1/10) = (Tile.new 0 300).destroy :=
  ⟨(tile_update_additive (Tile.new 0 300) (1/10) (1/10)
      (by norm_num) (by norm_num)).1 rfl,
   (tile_update_additive ((Tile.new 0 300).destroy) (1/10) (1/10)
      (by norm_num) (by norm_num)).2 rfl⟩

/-- C9: a tile's `speed` is fixed at spawn time — `spawnTile` appends a
tile carrying the system's `currentSpeed` of that moment,
`increaseDifficulty` never touches the existing tile list, and none of
the tile operations (`update`, `onClick`, `destroy`) modifies `speed`. -/
theorem tile_speed_fixed_at_spawn :
    (∀ (sys : TileSystem) (delta : ℚ), (sys.increaseDifficulty delta).tiles = sys.tiles) ∧
    (∀ (sys : TileSystem) (r : ℚ),
      (sys.spawnTile r).tiles =
        sys.tiles ++ [Tile.new (TileSystem.randomColumn r) sys.currentSpeed]) ∧
    (∀ (column : ℤ) (speed : ℚ), (Tile.new column speed).speed = speed) ∧
    (∀ (t : Tile) (delta : ℚ), (t.update delta).speed = t.speed) ∧
    (∀ t : Tile, t.onClick.1.speed = t.speed) ∧
    (∀ t : Tile, t.destroy.speed = t.speed) := by
  refine ⟨fun sys delta => rfl, fun sys r => rfl, fun column speed => rfl,
    ?_, ?_, fun t => rfl⟩
  · intro t delta
    unfold Tile.update
    split <;> rfl
  · intro t
    unfold Tile.onClick
    split <;> rfl

/-- C6: `Tile.onClick` on an inactive or already-clicked tile is a no-op
emitting no event; on an active unclicked tile it emits exactly one event
(carrying the tile's `y`), and a second click on the resulting tile is a
no-op emitting nothing — so double taps yield exactly one judgment. -/
theorem tile_click_idempotent (t : Tile) :
    (t.active = false ∨ t.clicked = true → t.onClick = (t, none)) ∧
    (t.active = true → t.clicked = false →
      t.onClick.2 = some t.y ∧ t.onClick.1.onClick = (t.onClick.1, none)) := by
  constructor
  · intro h
    simp [Tile.onClick, h]
  · intro ha hc
    simp [Tile.onClick, ha, hc]

/-- Witness for C6: a destroyed tile click is a no-op; a fresh tile click
emits one event and a second click is a no-op. -/
theorem tile_click_idempotent_witness :
    (Tile.new 0 300).destroy.onClick = ((Tile.new 0 300).destroy, none) ∧
    (Tile.new 1 300).onClick.2 = some (Tile.new 1 300).y ∧
    (Tile.new 1 300).onClick.1.onClick = ((Tile.new 1 300).onClick.1, none) :=
  ⟨(tile_click_idempotent (Tile.new 0 300).destroy).1 (Or.inl rfl),
   ((tile_click_idempotent (Tile.new 1 300)).2 rfl rfl).1,
   ((tile_click_idempotent (Tile.new 1 300)).2 rfl rfl).2⟩

/-- `isInHitZone` holds exactly when the hit distance is within
`HIT_ZONE_TOLERANCE`. -/
lemma isInHitZone_iff (sys : TileSystem) (y : ℚ) :
    sys.isInHitZone y = true ↔ sys.hitDistance y ≤ CONFIG.HIT_ZONE_TOLERANCE := by
  simp [TileSystem.isInHitZone, TileSystem.hitDistance]

/-- `isPerfectHit` holds exactly when the hit distance is within
`PERFECT_TOLERANCE`. -/
lemma isPerfectHit_iff (sys : TileSystem) (y : ℚ) :
    sys.isPerfectHit y = true ↔ sys.hitDistance y ≤ CONFIG.PERFECT_TOLERANCE := by
  simp [TileSystem.isPerfectHit, TileSystem.hitDistance]

/-- `handleTileClick` while PLAYING, written as the three-way distance
classification. -/
lemma handleTileClick_playing (e : GameEngine) (y : ℚ)
    (hp : e.stateManager.currentState = GameState.PLAYING) :
    e.handleTileClick y =
      if e.tileSystem.hitDistance y ≤ CONFIG.PERFECT_TOLERANCE then
        ({ e with stateManager := e.stateManager.addScore true }, some Judgment.perfect)
      else if e.tileSystem.hitDistance y ≤ CONFIG.HIT_ZONE_TOLERANCE then
        ({ e with stateManager := e.stateManager.addScore false }, some Judgment.good)
      else (e.gameOver, some Judgment.bad) := by
  unfold GameEngine.handleTileClick
  rw [if_neg (by simp [hp])]
  by_cases h50 : e.tileSystem.hitDistance y ≤ CONFIG.HIT_ZONE_TOLERANCE
  · rw [if_pos ((isInHitZone_iff e.tileSystem y).2 h50)]
    by_cases h20 : e.tileSystem.hitDistance y ≤ CONFIG.PERFECT_TOLERANCE
    · rw [if_pos h20]
      have hperf : e.tileSystem.isPerfectHit y = true := (isPerfectHit_iff e.tileSystem y).2 h20
      simp [hperf]
    · rw [if_neg h20, if_pos h50]
      have hperf : e.tileSystem.isPerfectHit y = false := by
        rw [Bool.eq_false_iff]
        intro hcontra
        exact h20 ((isPerfectHit_iff e.tileSystem y).1 hcontra)
      simp [hperf]
  · have h20 : ¬ e.tileSystem.hitDistance y ≤ CONFIG.PERFECT_TOLERANCE := by
      intro hcontra
      refine h50 (le_trans hcontra ?_)
      norm_num [CONFIG.PERFECT_TOLERANCE, CONFIG.HIT_ZONE_TOLERANCE]
    have hz : ¬ e.tileSystem.isInHitZone y = true := by
      intro hcontra
      exact h50 ((isInHitZone_iff e.tileSystem y).1 hcontra)
    rw [if_neg hz, if_neg h20, if_neg h50]

/-- C1: a hit attempt (`Tile.onClick` feeding `handleTileClick`) on an
active, unresolved tile while PLAYING emits exactly one judgment,
determined by `distance = |tileCenter - hitLineY|` with
`tileCenter = y + TILE_HEIGHT / 2`: `distance ≤ PERFECT_TOLERANCE` (20) is
a perfect hit, `PERFECT_TOLERANCE < distance ≤ HIT_ZONE_TOLERANCE` (50) a
good hit, and `distance > HIT_ZONE_TOLERANCE` a bad hit that transitions
the phase to GAMEOVER. -/
theorem hit_judgment_by_distance (e : GameEngine) (t : Tile)
    (hp : e.stateManager.currentState = GameState.PLAYING)
    (ha : t.active = true) (hc : t.clicked = false) :
    (e.clickTile t).2.2 =
      some (if e.tileSystem.hitDistance t.y ≤ CONFIG.PERFECT_TOLERANCE then
          Judgment.perfect
        else if e.tileSystem.hitDistance t.y ≤ CONFIG.HIT_ZONE_TOLERANCE then
          Judgment.good
        else Judgment.bad) ∧
    (CONFIG.HIT_ZONE_TOLERANCE < e.tileSystem.hitDistance t.y →
      (e.clickTile t).1.stateManager.currentState = GameState.GAMEOVER) := by
  have ho : t.onClick = ({ t with clicked := true }, some t.y) := by
    simp [Tile.onClick, ha, hc]
  have hct : e.clickTile t =
      ((e.handleTileClick t.y).1, { t with clicked := true }, (e.handleTileClick t.y).2) := by
    simp [GameEngine.clickTile, ho]
  rw [hct, handleTileClick_playing e t.y hp]
  by_cases h20 : e.tileSystem.hitDistance t.y ≤ CONFIG.PERFECT_TOLERANCE
  · have h50 : e.tileSystem.hitDistance t.y ≤ CONFIG.HIT_ZONE_TOLERANCE := by
      refine le_trans h20 ?_
      norm_num [CONFIG.PERFECT_TOLERANCE, CONFIG.HIT_ZONE_TOLERANCE]
    simp only [if_pos h20]
    exact ⟨trivial, fun hbad => absurd h50 (not_le.2 hbad)⟩
  · by_cases h50 : e.tileSystem.hitDistance t.y ≤ CONFIG.HIT_ZONE_TOLERANCE
    · simp only [if_neg h20, if_pos h50]
      exact ⟨trivial, fun hbad => absurd h50 (not_le.2 hbad)⟩
    · simp only [if_neg h20, if_neg h50]
      exact ⟨trivial, fun _ => rfl⟩

/-- Witness for C1: on a started game (hit line at 500), a tile at
`y = 450` (center 500, distance 0) is judged a perfect hit. -/
theorem hit_judgment_by_distance_witness :
    ((GameEngine.new 600 500).startGame.clickTile
      { column := 0, y := 450, speed := 300, active := true, clicked := false }).2.2 =
      some Judgment.perfect := by
  have h := hit_judgment_by_distance (GameEngine.new 600 500).startGame
    { column := 0, y := 450, speed := 300, active := true, clicked := false } rfl rfl rfl
  rw [h.1]
  norm_num [TileSystem.hitDistance, GameEngine.new, GameEngine.startGame,
    TileSystem.new, TileSystem.reset, CONFIG.PERFECT_TOLERANCE, CONFIG.TILE_HEIGHT]

/-- C5 counterexample: a restart request received while the phase is MENU
is not ignored — the fresh engine is in MENU, and `requestRestart`
(the `restart-btn` listener, which calls `startGame()` unguarded) moves
the phase away from MENU, to PLAYING. -/
theorem restart_in_menu_not_ignored :
    ¬ (GameEngine.new 600 500).requestRestart.stateManager.currentState = GameState.MENU ∧
    (GameEngine.new 600 500).stateManager.currentState = GameState.MENU := by
  constructor
  · intro h
    simp [GameEngine.new, GameEngine.requestRestart, GameEngine.startGame,
      GameStateManager.new, GameStateManager.setState, GameStateManager.resetScore] at h
  · rfl

/-- C5 (amended): start and restart requests are not phase-guarded — both
listeners call `startGame()`, which in every phase (in particular restart
while MENU) resets the tile system, resets the score state (score, combo
and best combo to 0, multiplier to 1) and transitions the phase to
PLAYING; only judgments are guarded: tile-click and tile-miss events
received while the phase is not PLAYING are discarded with no state
change and no error. -/
theorem transition_requests_and_judgment_guard (e : GameEngine) (y : ℚ) :
    (e.requestStart = e.startGame ∧ e.requestRestart = e.startGame) ∧
    (e.startGame.stateManager.currentState = GameState.PLAYING ∧
      e.startGame.tileSystem = e.tileSystem.reset ∧
      e.startGame.stateManager.score = 0 ∧
      e.startGame.stateManager.combo = 0 ∧
      e.startGame.stateManager.bestCombo = 0 ∧
      e.startGame.stateManager.multiplier = 1) ∧
    (¬ e.stateManager.currentState = GameState.PLAYING →
      e.handleTileMiss = e ∧ e.handleTileClick y = (e, none)) := by
  refine ⟨⟨rfl, rfl⟩, ⟨rfl, rfl, rfl, rfl, rfl, rfl⟩, fun h => ⟨?_, ?_⟩⟩
  · simp [GameEngine.handleTileMiss, h]
  · simp [GameEngine.handleTileClick, h]

/-- Witness for C5 (amended) on a fresh engine in MENU: the restart
request starts a game (phase PLAYING, score reset), and judgments in
MENU are discarded. -/
theorem transition_requests_witness :
    (GameEngine.new 600 500).requestRestart = (GameEngine.new 600 500).startGame ∧
    (GameEngine.new 600 500).startGame.stateManager.currentState = GameState.PLAYING ∧
    (GameEngine.new 600 500).startGame.stateManager.score = 0 ∧
    (GameEngine.new 600 500).handleTileMiss = GameEngine.new 600 500 ∧
    (GameEngine.new 600 500).handleTileClick 450 = (GameEngine.new 600 500, none) := by
  have h := transition_requests_and_judgment_guard (GameEngine.new 600 500) 450
  have hg := h.2.2 (by simp [GameEngine.new, GameStateManager.new])
  exact ⟨h.1.2, h.2.1.1, h.2.1.2.2.1, hg.1, hg.2⟩

/-- C7: each `TileSystem.update(delta)` spawns at most one tile: when the
accumulated spawn timer reaches `SPAWN_INTERVAL` exactly one tile is
appended — in a column in `[0, COLUMNS)` and carrying the system's current
fall speed — and the accumulator resets to 0, with no compensation for
multiple missed intervals; otherwise nothing spawns and the accumulator
becomes its old value plus `delta`. -/
theorem spawn_at_most_one_per_tick (sys : TileSystem) (delta r : ℚ)
    (hr0 : 0 ≤ r) (hr1 : r < 1) :
    (CONFIG.SPAWN_INTERVAL ≤ sys.spawnTimer + delta →
      (sys.update delta r).1.spawnTimer = 0 ∧
      0 ≤ TileSystem.randomColumn r ∧ TileSystem.randomColumn r < CONFIG.COLUMNS ∧
      (sys.spawnTile r).tiles =
        sys.tiles ++ [Tile.new (TileSystem.randomColumn r) sys.currentSpeed] ∧
      (sys.update delta r).1.tiles =
        (TileSystem.tickTiles sys.gameAreaHeight delta
          (sys.tiles ++ [Tile.new (TileSystem.randomColumn r) sys.currentSpeed])).1) ∧
    (sys.spawnTimer + delta < CONFIG.SPAWN_INTERVAL →
      (sys.update delta r).1.spawnTimer = sys.spawnTimer + delta ∧
      (sys.update delta r).1.tiles =
        (TileSystem.tickTiles sys.gameAreaHeight delta sys.tiles).1) := by
  constructor
  · intro h
    refine ⟨?_, ?_, ?_, rfl, ?_⟩
    · simp [TileSystem.update, h]
    · unfold TileSystem.randomColumn CONFIG.COLUMNS
      refine Int.le_floor.2 ?_
      push_cast
      nlinarith [hr0]
    · unfold TileSystem.randomColumn CONFIG.COLUMNS
      refine Int.floor_lt.2 ?_
      push_cast
      nlinarith [hr1]
    · simp [TileSystem.update, TileSystem.spawnTile, h]
  · intro h
    have h' : ¬ CONFIG.SPAWN_INTERVAL ≤ sys.spawnTimer + delta := not_le.2 h
    exact ⟨by simp [TileSystem.update, h'], by simp [TileSystem.update, h']⟩

/-- Witness for C7: a system whose timer is at 0.5 s, ticked by 0.2 s with
random draw 1/2 — the interval (0.6 s) is reached, so one tile spawns and
the timer resets. -/
theorem spawn_at_most_one_per_tick_witness :
    (({ TileSystem.new 600 500 with spawnTimer := 1/2 }.update (1/5) (1/2)).1.spawnTimer = 0 ∧
      0 ≤ TileSystem.randomColumn (1/2) ∧
      TileSystem.randomColumn (1/2) < CONFIG.COLUMNS ∧
      ({ TileSystem.new 600 500 with spawnTimer := 1/2 }.spawnTile (1/2)).tiles =
        { TileSystem.new 600 500 with spawnTimer := 1/2 }.tiles ++
          [Tile.new (TileSystem.randomColumn (1/2))
            { TileSystem.new 600 500 with spawnTimer := 1/2 }.currentSpeed] ∧
      ({ TileSystem.new 600 500 with spawnTimer := 1/2 }.update (1/5) (1/2)).1.tiles =
        (TileSystem.tickTiles
          { TileSystem.new 600 500 with spawnTimer := 1/2 }.gameAreaHeight (1/5)
          ({ TileSystem.new 600 500 with spawnTimer := 1/2 }.tiles ++
            [Tile.new (TileSystem.randomColumn (1/2))
              { TileSystem.new 600 500 with spawnTimer := 1/2 }.currentSpeed])).1) :=
  (spawn_at_most_one_per_tick { TileSystem.new 600 500 with spawnTimer := 1/2 }
      (1/5) (1/2) (by norm_num) (by norm_num)).1
    (by norm_num [TileSystem.new, CONFIG.SPAWN_INTERVAL])

/-- C2 (code evidence): in `missScenario` — PLAYING, score 700, combo 6,
multiplier 2, one unresolved tile past the bottom boundary — a 0.01 s tick
emits exactly one miss judgment and moves the phase to GAMEOVER with the
score untouched, but the combo is NOT reset: combo stays 6 and multiplier
stays 2.  `GameStateManager.resetCombo`, whose source doc comment reads
"Reset combo on miss or bad click", is never invoked by any handler. -/
theorem miss_leaves_combo_unreset :
    (missScenario.tileSystem.update (1/100) 0).2.length = 1 ∧
    (missScenario.update (1/100) 0).stateManager.currentState = GameState.GAMEOVER ∧
    (missScenario.update (1/100) 0).stateManager.score = 700 ∧
    (missScenario.update (1/100) 0).stateManager.combo = 6 ∧
    (missScenario.update (1/100) 0).stateManager.multiplier = 2 ∧
    ¬ (missScenario.update (1/100) 0).stateManager.combo = 0 := by
  norm_num [missScenario, GameEngine.new, GameEngine.startGame, GameEngine.update,
    GameEngine.handleTileMiss, GameEngine.gameOver, GameStateManager.new,
    GameStateManager.setState, GameStateManager.resetScore, GameStateManager.addScore,
    TileSystem.new, TileSystem.reset, TileSystem.update, TileSystem.tickTiles,
    TileSystem.spawnTile, Tile.update, TileSystem.increaseDifficulty,
    CONFIG.SPAWN_INTERVAL, CONFIG.INITIAL_SPEED, CONFIG.COMBO_MULTIPLIER_INCREASE]

end MagicTiles
